import Mathlib

/-!
Verification development for the caboodle repository.

The file shallowly embeds the flow-routing graph of src/model/node.py and the
logging decorator of src/model/data.py.  The reservoir module (model/reservoir.py)
and the asset module (model/asset.py) are not present in the repository snapshot;
the definitions for them below are reconstructed from spec.md (sections 3 and 4)
and are marked `Modelled from the spec:` in their doc comments.  Real numbers of
the Python code are embedded as rationals.
-/

namespace Caboodle

/-- Failure states of an asset-backed outlet: NONE is fully controllable, OPEN is
stuck fully open, CLOSED is stuck fully shut. -/
inductive FailureState
| NONE
| OPEN
| CLOSED
deriving DecidableEq

/-- Modelled from the spec: model/asset.py is absent; section 6 of the spec says an
asset exposes a current depreciated value and a salvage-value threshold. -/
structure Asset where
  current_value : ℚ := 0
  salvage_value : ℚ := 0
deriving DecidableEq

/-- Design release bounds of an outlet.  The Python default maximum is +infinity,
encoded here as `none`; `some m` encodes a finite bound m. -/
structure DesignRange where
  dmin : ℚ := 0
  dmax : Option ℚ := none
deriving DecidableEq

/-- Computed instantaneous release bounds (always finite, being capped by the
physically available water). -/
structure ReleaseRange where
  rmin : ℚ
  rmax : ℚ
deriving DecidableEq

/-- Modelled from the spec: model/reservoir.py is absent; a plain outlet has a name,
a location (elevation threshold) and a design release range (spec section 3). -/
structure BasicOutlet where
  name : String := ""
  location : ℚ := 0
  design_range : DesignRange := {}
deriving DecidableEq

/-- Modelled from the spec: an asset-backed outlet is an outlet together with an
asset and a latched failure state (spec section 3). -/
structure OutletAsset where
  asset : Asset
  name : String := ""
  location : ℚ := 0
  design_range : DesignRange := {}
  failure_state : FailureState := .NONE
deriving DecidableEq

/-- Closed sum of the two outlet variants owned by a reservoir. -/
inductive AnyOutlet
| basic : BasicOutlet → AnyOutlet
| withAsset : OutletAsset → AnyOutlet
deriving DecidableEq

/-- Display or base name of an outlet of either variant. -/
def AnyOutlet.name : AnyOutlet → String
| .basic o => o.name
| .withAsset o => o.name

/-- Location of an outlet of either variant. -/
def AnyOutlet.location : AnyOutlet → ℚ
| .basic o => o.location
| .withAsset o => o.location

/-- Replace the name of an outlet of either variant, keeping all other fields. -/
def AnyOutlet.rename : AnyOutlet → String → AnyOutlet
| .basic o, n => .basic { o with name := n }
| .withAsset o, n => .withAsset { o with name := n }

/-- Minimum of two rationals, written out so that it evaluates by kernel
reduction. -/
def qmin (a b : ℚ) : ℚ := if a ≤ b then a else b

/-- Maximum of two rationals, written out so that it evaluates by kernel
reduction. -/
def qmax (a b : ℚ) : ℚ := if a ≤ b then b else a

/-- Minimum of a possibly unbounded design limit and the available amount; an
unbounded limit never constrains. -/
def capMax : Option ℚ → ℚ → ℚ
| none, a => a
| some d, a => qmin d a

/-- Modelled from the spec: release range of a plain outlet at water level
`volume` (spec section 4.3), as exercised by TestBasicGate. -/
def basic_gate (o : BasicOutlet) (volume : ℚ) : ReleaseRange :=
  let avail := qmax 0 (volume - o.location)
  ⟨qmin o.design_range.dmin avail, capMax o.design_range.dmax avail⟩

/-- Modelled from the spec: release range of an asset-backed outlet at water level
`volume` (spec section 4.3); CLOSED forces (0,0), OPEN pins both bounds to the
capped design maximum, NONE behaves like a plain outlet. -/
def basic_gate_with_failure (o : OutletAsset) (volume : ℚ) : ReleaseRange :=
  let avail := qmax 0 (volume - o.location)
  match o.failure_state with
  | .NONE => ⟨qmin o.design_range.dmin avail, capMax o.design_range.dmax avail⟩
  | .CLOSED => ⟨0, 0⟩
  | .OPEN => ⟨capMax o.design_range.dmax avail, capMax o.design_range.dmax avail⟩

/-- Modelled from the spec: failure-state evaluation of an asset-backed outlet
(spec section 4.2), as exercised by TestUpdateCondition.  A non-NONE state is
latched; a sound asset (value above salvage) leaves the outlet unchanged;
otherwise the outlet fails OPEN when the water level is above its location and
CLOSED otherwise. -/
def update_condition (o : OutletAsset) (value volume : ℚ) : OutletAsset :=
  if o.failure_state ≠ .NONE then o
  else if value > o.asset.salvage_value then o
  else { o with failure_state := if volume > o.location then .OPEN else .CLOSED }

/-- One outlet step of the allocation loop: evaluate the failure state (for the
asset-backed variant) at the current level, then release the maximum of the
computed release range.  Returns the possibly latched outlet and the release. -/
def step_outlet (o : AnyOutlet) (level : ℚ) : AnyOutlet × ℚ :=
  match o with
  | .basic b => (.basic b, (basic_gate b level).rmax)
  | .withAsset a =>
      let a2 := update_condition a a.asset.current_value level
      (.withAsset a2, (basic_gate_with_failure a2 level).rmax)

/-- Lexicographic comparison of character-code lists, used for name tie-breaks. -/
def codesLe : List ℕ → List ℕ → Bool
| [], _ => true
| _ :: _, [] => false
| a :: as, b :: bs => if a < b then true else if a = b then codesLe as bs else false

/-- Name order on strings by character codes (agrees with the Python string order
on the ASCII names used by the repository). -/
def nameLe (a b : String) : Bool :=
  codesLe (a.data.map Char.toNat) (b.data.map Char.toNat)

/-- Descending processing order on indexed outlets: location descending, display
name ascending for ties (spec section 4.1). -/
def descOrder (a b : ℕ × AnyOutlet) : Prop :=
  b.2.location < a.2.location ∨
    (a.2.location = b.2.location ∧ nameLe a.2.name b.2.name = true)

instance : DecidableRel descOrder :=
  fun a b => inferInstanceAs (Decidable (_ ∨ _ ∧ _))

/-- Ascending order on indexed releases by original (ascending) outlet position. -/
def posOrder (a b : ℕ × ℚ) : Prop := a.1 ≤ b.1

instance : DecidableRel posOrder :=
  fun a b => inferInstanceAs (Decidable (_ ≤ _))

/-- Allocation loop of the reservoir: walk the outlets in processing order,
threading the remaining water level through `step_outlet`; return the indexed
releases and the final remaining level. -/
def allocate : ℚ → List (ℕ × AnyOutlet) → List (ℕ × ℚ) × ℚ
| remaining, [] => ([], remaining)
| remaining, (i, o) :: rest =>
    let rel := (step_outlet o remaining).2
    let rs := allocate (remaining - rel) rest
    ((i, rel) :: rs.1, rs.2)

/-- Modelled from the spec: a reservoir owns a capacity (default 1) and an ordered
sequence of outlets; the default configuration is a single plain outlet named
"outlet@1" at location 1 (spec section 3 and TestReservoir). -/
structure Reservoir where
  capacity : ℚ := 1
  outlets : List AnyOutlet := [.basic { name := "outlet@1", location := 1 }]

/-- Modelled from the spec: the per-step allocation algorithm (spec section 4.4).
Process the outlets in descending (location, name) order starting from level V,
write the releases back to ascending positions, then storage is the remaining
level clamped to capacity and spill is the excess.  The output list is the
per-outlet releases in ascending positions followed by spill and storage. -/
def Reservoir.operate (r : Reservoir) (volume : ℚ) : List ℚ :=
  let queue := List.insertionSort descOrder r.outlets.enum
  let rs := allocate volume queue
  let storage := qmin rs.2 r.capacity
  let spill := rs.2 - storage
  (List.insertionSort posOrder rs.1).map Prod.snd ++ [spill, storage]

/-- Modelled from the spec: headers of a reservoir's per-step output row, one per
outlet plus the spill and storage columns (spec sections 4.4 and 6). -/
def Reservoir.output_headers (r : Reservoir) : List String :=
  r.outlets.map AnyOutlet.name ++ ["spill", "storage"]

/-- Render a location for a display name; integral locations print without a
fractional part, matching the observed names such as "outlet@1". -/
def locString (q : ℚ) : String :=
  if q.den = 1 then toString q.num else toString q

/-- Candidate display name of an outlet: base name, then "@", then the location. -/
def displayName (base : String) (loc : ℚ) : String :=
  base ++ "@" ++ locString loc

/-- Base name of an outlet, defaulting to the literal "outlet" when none was
supplied (spec section 4.1). -/
def baseName (s : String) : String := if s = "" then "outlet" else s

/-- Modelled from the spec: collision resolution of section 4.1; if the candidate
display name is already taken, append the increasing numerals 2, 3, ... to the
base name before the location suffix until a fresh name appears. -/
def freshName (used : List String) (base : String) (loc : ℚ) : String :=
  let c0 := displayName base loc
  if used.contains c0 then
    (((List.range (used.length + 1)).map
        (fun j => displayName (base ++ toString (j + 2)) loc)).find?
      (fun c => !(used.contains c))).getD c0
  else c0

/-- Normalization walk over the outlets in input order, carrying the display
names already produced. -/
def formatGo (used : List String) : List AnyOutlet → List AnyOutlet
| [] => []
| o :: rest =>
    let n := freshName used (baseName o.name) o.location
    o.rename n :: formatGo (n :: used) rest

/-- Modelled from the spec: name normalization applied to a fresh copy of the
outlets when they are attached to a reservoir (spec section 4.1, TestFormatOutlets). -/
def format_outlets (outlets : List AnyOutlet) : List AnyOutlet :=
  formatGo [] outlets

/-- Ascending externally observed order on outlets: location ascending, display
name ascending (spec section 4.1). -/
def ascOrder (a b : AnyOutlet) : Prop :=
  a.location < b.location ∨ (a.location = b.location ∧ nameLe a.name b.name = true)

instance : DecidableRel ascOrder :=
  fun a b => inferInstanceAs (Decidable (_ ∨ _ ∧ _))

/-- Modelled from the spec: reservoir construction normalizes the supplied outlet
names and stores the outlets in ascending (location, name) order. -/
def Reservoir.make (capacity : ℚ) (outlets : List AnyOutlet) : Reservoir :=
  ⟨capacity, List.insertionSort ascOrder (format_outlets outlets)⟩

/-- State of an Inflow node of src/model/node.py: the supplied data series and the
private timestep cursor. -/
structure Inflow where
  data : List ℚ
  timestep : ℕ := 0
deriving DecidableEq

/-- Embedding of Inflow.receive: the cursor is advanced by one and the series is
indexed at the pre-advance cursor; an index at or past the end of the series is
the Python IndexError, embedded as `none`. -/
def Inflow.receive (s : Inflow) : Option (ℚ × Inflow) :=
  let t := s.timestep + 1
  match s.data.get? (t - 1) with
  | none => none
  | some x => some (x, { s with timestep := t })

/-- Embedding of Inflow.send, which simply returns Inflow.receive (the logging
decorator does not alter the value, see logWrapper below). -/
def Inflow.send (s : Inflow) : Option (ℚ × Inflow) :=
  s.receive

/-- Embedding of Inflow.reset: the cursor returns to timestep 0. -/
def Inflow.reset (s : Inflow) : Inflow :=
  { s with timestep := 0 }

/-- Embedding of Inflow.output_headers, the one-column tuple ('inflow',). -/
def Inflow.output_headers : List String := ["inflow"]

/-- Iterate Inflow.receive k times, collecting the received values in call order;
any out-of-range failure aborts the whole run. -/
def Inflow.receiveList : Inflow → ℕ → Option (List ℚ)
| _, 0 => some []
| s, k + 1 =>
    match s.receive with
    | none => none
    | some (x, s2) => (s2.receiveList k).map (fun l => x :: l)

/-- State of a Storage node of src/model/node.py: the current volume and the owned
reservoir.  The sender set is modelled separately (see Storage.add_sender),
and the total inflow produced by the senders is passed as an argument. -/
structure Storage where
  volume : ℚ := 0
  reservoir : Reservoir := {}

/-- Python negative index -1 on a list: the last element (reservoir outputs are
never empty, so the default is never reached). -/
def pyLast (l : List ℚ) : ℚ := l.getLast?.getD 0

/-- Python slice [1:-2] on a list: the elements from index 1 up to but excluding
the last two. -/
def pySlice1ToNeg2 (l : List ℚ) : List ℚ := (l.drop 1).take (l.length - 3)

/-- Embedding of Storage.storage: the last component of a reservoir output. -/
def Storage.storage_of (output : List ℚ) : ℚ := pyLast output

/-- Embedding of Storage.outflows: the sum of the slice [1:-2] of an update
output. -/
def Storage.outflows (output : List ℚ) : ℚ := (pySlice1ToNeg2 output).sum

/-- Embedding of Storage.update: operate on the received inflow plus the current
volume, store the storage component of the output as the new volume, and return
the full output tuple prefixed with the raw inflow. -/
def Storage.update (s : Storage) (inflow : ℚ) : List ℚ × Storage :=
  let output := s.reservoir.operate (inflow + s.volume)
  (inflow :: output, { s with volume := Storage.storage_of output })

/-- Embedding of Storage.send: run Storage.update and reduce its output tuple with
Storage.outflows. -/
def Storage.send (s : Storage) (inflow : ℚ) : ℚ × Storage :=
  let r := s.update inflow
  (Storage.outflows r.1, r.2)

/-- Embedding of the output_headers attribute a Storage instance actually carries:
__post_init__ assigns the tuple (tag.value, *reservoir.output_headers), which
shadows the identically named method on the instance. -/
def Storage.output_headers (s : Storage) : List String :=
  "storage" :: s.reservoir.output_headers

/-- Embedding of Storage.add_sender over the sender set: adding an already present
sender raises ValueError before the set is touched.  The first component is the
outcome, the second the resulting sender set. -/
def Storage.add_sender (senders : Finset ℕ) (sender : ℕ) : Except String Unit × Finset ℕ :=
  if sender ∈ senders then (.error "Redundant, sender already sends flow.", senders)
  else (.ok (), insert sender senders)

/-- Embedding of Storage.remove_sender: Python set.remove raises KeyError when the
element is absent, leaving the set unchanged. -/
def Storage.remove_sender (senders : Finset ℕ) (sender : ℕ) : Except String Unit × Finset ℕ :=
  if sender ∈ senders then (.ok (), senders.erase sender)
  else (.error "KeyError", senders)

/-- Embedding of Outlet.add_sender of the terminal node class, identical logic to
Storage.add_sender with its own message. -/
def OutletNode.add_sender (senders : Finset ℕ) (sender : ℕ) : Except String Unit × Finset ℕ :=
  if sender ∈ senders then (.error "Sender already sends flow.", senders)
  else (.ok (), insert sender senders)

/-- Embedding of Outlet.remove_sender of the terminal node class. -/
def OutletNode.remove_sender (senders : Finset ℕ) (sender : ℕ) : Except String Unit × Finset ℕ :=
  if sender ∈ senders then (.ok (), senders.erase sender)
  else (.error "KeyError", senders)

/-- Embedding of Outlet.output_headers of the terminal node class, the one-column
tuple ('outlet',). -/
def OutletNode.output_headers : List String := ["outlet"]

/-- Embedding of the wrapper closure of the logger decorator in src/model/data.py:
call the wrapped function, append the output to the log's data list, and return
the output unchanged. -/
def logWrapper {α β : Type} (f : α → β) (x : α) (log : List β) : β × List β :=
  let output := f x
  (output, log ++ [output])

/-- Run the logger wrapper over a list of calls against one log, threading the
log's data list through the calls. -/
def logWrapperRuns {α β : Type} (f : α → β) : List α → List β → List β
| [], log => log
| x :: xs, log => logWrapperRuns f xs (logWrapper f x log).2

/-- Embedding of DataNode.send: it invokes the wrapped node's send (whose effect
on the log is kept) but has no return statement, so it produces Python None,
embedded as `none`. -/
def DataNode.send (nodeSend : List ℚ → ℚ × List ℚ) (log : List ℚ) : Option ℚ × List ℚ :=
  let result := nodeSend log
  (none, result.2)

/-- A fixed plain outlet named "name" at the default location 0, used to exercise
the name-collision scenario. -/
def nameOutlet : AnyOutlet := .basic { name := "name" }

lemma qmin_eq (a b : ℚ) : qmin a b = min a b := by
  rw [qmin, min_def]

lemma qmax_eq (a b : ℚ) : qmax a b = max a b := by
  rw [qmax, max_def]

lemma allocate_length (l : List (ℕ × AnyOutlet)) :
    ∀ rem : ℚ, (allocate rem l).1.length = l.length := by
  induction l with
  | nil => intro rem; rfl
  | cons p rest ih =>
      intro rem
      obtain ⟨i, o⟩ := p
      simp only [allocate, List.length_cons, ih]

lemma allocate_final (l : List (ℕ × AnyOutlet)) :
    ∀ rem : ℚ, (allocate rem l).2 = rem - ((allocate rem l).1.map Prod.snd).sum := by
  induction l with
  | nil => intro rem; simp [allocate]
  | cons p rest ih =>
      intro rem
      obtain ⟨i, o⟩ := p
      simp only [allocate, List.map_cons, List.sum_cons]
      rw [ih]
      ring

lemma operate_decomp (r : Reservoir) (V : ℚ) :
    ∃ rels fin, r.operate V = rels ++ [fin - qmin fin r.capacity, qmin fin r.capacity] ∧
      rels.length = r.outlets.length ∧ rels.sum = V - fin := by
  refine ⟨(List.insertionSort posOrder
      (allocate V (List.insertionSort descOrder r.outlets.enum)).1).map Prod.snd,
    (allocate V (List.insertionSort descOrder r.outlets.enum)).2, rfl, ?_, ?_⟩
  · rw [List.length_map,
      (List.perm_insertionSort posOrder _).length_eq, allocate_length,
      (List.perm_insertionSort descOrder _).length_eq, List.enum_length]
  · rw [((List.perm_insertionSort posOrder _).map Prod.snd).sum_eq,
      allocate_final]
    ring

lemma operate_length (r : Reservoir) (V : ℚ) :
    (r.operate V).length = r.outlets.length + 2 := by
  obtain ⟨rels, fin, heq, hlen, -⟩ := operate_decomp r V
  rw [heq, List.length_append, hlen]
  rfl

/-- Claim C1: for every reservoir and every non-negative input volume V, operate
returns one release per outlet together with a spill and a storage amount whose
total sum is exactly V (volume conservation). -/
theorem operate_conserves_volume (r : Reservoir) (V : ℚ) (hV : 0 ≤ V) :
    ∃ rels spill storage, r.operate V = rels ++ [spill, storage] ∧
      rels.length = r.outlets.length ∧ rels.sum + spill + storage = V := by
  obtain ⟨rels, fin, heq, hlen, hsum⟩ := operate_decomp r V
  exact ⟨rels, fin - qmin fin r.capacity, qmin fin r.capacity, heq, hlen, by
    rw [hsum]; ring⟩

/-- Witness for C1 at the default single-outlet reservoir and V = 2. -/
theorem operate_conserves_volume_witness :
    (0 : ℚ) ≤ 2 ∧
    ∃ rels spill storage, Reservoir.operate {} 2 = rels ++ [spill, storage] ∧
      rels.length = (Reservoir.mk 1 [.basic { name := "outlet@1", location := 1 }]).outlets.length ∧
      rels.sum + spill + storage = 2 :=
  ⟨by norm_num, operate_conserves_volume {} 2 (by norm_num)⟩

/-- Claim C2: once an asset-backed outlet's failure state is OPEN or CLOSED, a
condition update returns the very same outlet, whatever asset value and water
level are passed in; hence the per-outlet step of operate, which is the only
place operate re-evaluates conditions, also leaves it unchanged. -/
theorem update_condition_sticky (o : OutletAsset) (value volume level : ℚ)
    (h : o.failure_state = .OPEN ∨ o.failure_state = .CLOSED) :
    update_condition o value volume = o ∧
    (step_outlet (.withAsset o) level).1 = .withAsset o := by
  have hne : o.failure_state ≠ .NONE := by
    rcases h with h | h <;> rw [h] <;> intro hc <;> cases hc
  constructor
  · rw [update_condition, if_pos hne]
  · rw [step_outlet]
    simp only [update_condition, if_pos hne]

/-- Witness for C2 at a concrete OPEN outlet. -/
theorem update_condition_sticky_witness :
    update_condition { asset := {}, failure_state := .OPEN } 5 7 =
      { asset := {}, failure_state := .OPEN } ∧
    (step_outlet (.withAsset { asset := {}, failure_state := .OPEN }) 3).1 =
      .withAsset { asset := {}, failure_state := .OPEN } :=
  update_condition_sticky { asset := {}, failure_state := .OPEN } 5 7 3 (Or.inl rfl)

/-- Claim C3: Storage.update returns the inflow prepended to the reservoir output
for the inflow plus the current volume and stores the final storage component as
the new volume; Storage.send reduces that same tuple to the sum of the per-outlet
releases, excluding the inflow prefix, the spill and the storage. -/
theorem storage_update_send_spec (s : Storage) (i : ℚ) (rels : List ℚ) (spill storage : ℚ)
    (h : s.reservoir.operate (i + s.volume) = rels ++ [spill, storage]) :
    (s.update i).1 = i :: s.reservoir.operate (i + s.volume) ∧
    (s.update i).2.volume = storage ∧
    (s.send i).1 = rels.sum ∧
    (s.send i).2 = (s.update i).2 := by
  refine ⟨rfl, ?_, ?_, rfl⟩
  · show Storage.storage_of (s.reservoir.operate (i + s.volume)) = storage
    rw [h, Storage.storage_of, pyLast]
    simp
  · show Storage.outflows (i :: s.reservoir.operate (i + s.volume)) = rels.sum
    rw [h, Storage.outflows, pySlice1ToNeg2]
    simp only [List.drop_succ_cons, List.drop_zero, List.length_cons, List.length_append,
      List.length_cons, List.length_nil]
    have h3 : rels.length + (0 + 1 + 1) + 1 - 3 = rels.length := by omega
    rw [h3, List.take_left]

/-- Witness for C3 at the default reservoir with volume 0 and inflow 2. -/
theorem storage_update_send_spec_witness :
    (Storage.update {} 2).1 = (2 : ℚ) :: Reservoir.operate {} (2 + 0) ∧
    (Storage.update {} 2).2.volume = 1 ∧
    (Storage.send {} 2).1 = ([(1 : ℚ)]).sum ∧
    (Storage.send {} 2).2 = (Storage.update {} 2).2 :=
  storage_update_send_spec {} 2 [1] 0 1 (by
    norm_num [Reservoir.operate, List.insertionSort, List.enum, List.enumFrom,
      allocate, step_outlet, basic_gate, qmax, qmin, capMax])

/-- Claim C4: format_outlets is deterministic (equal inputs give equal outputs,
and being a pure function of its argument it cannot mutate it), and a collision
of two outlets named "name" at the default location 0 is resolved as "name@0"
followed by "name2@0". -/
theorem format_outlets_deterministic_and_collision :
    (∀ xs ys : List AnyOutlet, xs = ys → format_outlets xs = format_outlets ys) ∧
    (format_outlets [nameOutlet, nameOutlet]).map AnyOutlet.name = ["name@0", "name2@0"] := by
  refine ⟨fun xs ys h => by rw [h], ?_⟩
  decide

/-- Witness for C4, instantiating the determinism part at a concrete input. -/
theorem format_outlets_deterministic_and_collision_witness :
    format_outlets [nameOutlet] = format_outlets [nameOutlet] ∧
    (format_outlets [nameOutlet, nameOutlet]).map AnyOutlet.name = ["name@0", "name2@0"] :=
  ⟨format_outlets_deterministic_and_collision.1 [nameOutlet] [nameOutlet] rfl,
    format_outlets_deterministic_and_collision.2⟩

/-- Claim C5: a receive on an Inflow whose cursor is at or past the end of the
series fails with an out-of-range condition instead of producing a default value,
and a receive within the series returns the element at the cursor and advances
the cursor by one; send returns exactly what receive returns. -/
theorem inflow_receive_spec (s : Inflow) :
    (s.data.length ≤ s.timestep → s.receive = none ∧ s.send = none) ∧
    (∀ h : s.timestep < s.data.length,
      s.receive = some (s.data.get ⟨s.timestep, h⟩, { s with timestep := s.timestep + 1 }) ∧
      s.send = s.receive) := by
  constructor
  · intro h
    have : s.receive = none := by
      rw [Inflow.receive]
      simp only [Nat.add_sub_cancel]
      rw [List.get?_eq_none.2 h]
    exact ⟨this, this⟩
  · intro h
    constructor
    · rw [Inflow.receive]
      simp only [Nat.add_sub_cancel]
      rw [List.get?_eq_get h]
    · rfl

/-- Witness for C5: an exhausted one-element series fails, a fresh one succeeds. -/
theorem inflow_receive_spec_witness :
    Inflow.receive ⟨[5], 1⟩ = none ∧
    Inflow.receive ⟨[5], 0⟩ = some (5, ⟨[5], 1⟩) := by
  constructor
  · exact ((inflow_receive_spec ⟨[5], 1⟩).1 (by norm_num)).1
  · have h := ((inflow_receive_spec ⟨[5], 0⟩).2 (by norm_num)).1
    simpa using h

lemma receiveList_shift (data : List ℚ) :
    ∀ (k t : ℕ), t + k ≤ data.length →
      Inflow.receiveList ⟨data, t⟩ k = some ((data.drop t).take k) := by
  intro k
  induction k with
  | zero => intro t _; simp [Inflow.receiveList]
  | succ k ih =>
      intro t hk
      have ht : t < data.length := by omega
      have hrecv : Inflow.receive ⟨data, t⟩ = some (data.get ⟨t, ht⟩, ⟨data, t + 1⟩) := by
        rw [Inflow.receive]
        simp only [Nat.add_sub_cancel]
        rw [List.get?_eq_get ht]
      rw [Inflow.receiveList, hrecv]
      dsimp only
      rw [ih (t + 1) (by omega), List.drop_eq_getElem_cons ht]
      rfl

/-- Claim C7: resetting an Inflow node, even one constructed with a nonzero
starting position, makes k subsequent receives replay exactly the first k
elements of the series, identically to a freshly constructed node at position 0. -/
theorem inflow_reset_replay (data : List ℚ) (start k : ℕ) (h : k ≤ data.length) :
    (Inflow.reset ⟨data, start⟩).receiveList k = Inflow.receiveList ⟨data, 0⟩ k ∧
    (Inflow.reset ⟨data, start⟩).receiveList k = some (data.take k) := by
  refine ⟨rfl, ?_⟩
  have := receiveList_shift data k 0 (by omega)
  simpa [Inflow.reset] using this

/-- Witness for C7 with series [3, 4], starting position 5 and k = 2. -/
theorem inflow_reset_replay_witness :
    (Inflow.reset ⟨[3, 4], 5⟩).receiveList 2 = Inflow.receiveList ⟨[3, 4], 0⟩ 2 ∧
    (Inflow.reset ⟨[3, 4], 5⟩).receiveList 2 = some ([3, 4] : List ℚ) :=
  inflow_reset_replay [3, 4] 5 2 (by norm_num)

/-- Claim C6: adding a sender already present and removing a sender not present
are both rejected with an error, for Storage nodes and terminal Outlet nodes
alike, and in both error cases the sender set is returned unchanged. -/
theorem sender_wiring_errors (senders : Finset ℕ) (x : ℕ) :
    (x ∈ senders →
      (∃ e, Storage.add_sender senders x = (.error e, senders)) ∧
      (∃ e, OutletNode.add_sender senders x = (.error e, senders))) ∧
    (x ∉ senders →
      (∃ e, Storage.remove_sender senders x = (.error e, senders)) ∧
      (∃ e, OutletNode.remove_sender senders x = (.error e, senders))) := by
  constructor
  · intro h
    exact ⟨⟨_, by rw [Storage.add_sender, if_pos h]⟩,
      ⟨_, by rw [OutletNode.add_sender, if_pos h]⟩⟩
  · intro h
    exact ⟨⟨_, by rw [Storage.remove_sender, if_neg h]⟩,
      ⟨_, by rw [OutletNode.remove_sender, if_neg h]⟩⟩

/-- Witness for C6 at the sender set containing only node 1. -/
theorem sender_wiring_errors_witness :
    ((1 : ℕ) ∈ ({1} : Finset ℕ) ∧
      (∃ e, Storage.add_sender {1} 1 = (.error e, {1})) ∧
      (∃ e, OutletNode.add_sender {1} 1 = (.error e, {1}))) ∧
    ((2 : ℕ) ∉ ({1} : Finset ℕ) ∧
      (∃ e, Storage.remove_sender {1} 2 = (.error e, {1})) ∧
      (∃ e, OutletNode.remove_sender {1} 2 = (.error e, {1}))) :=
  ⟨⟨by decide, (sender_wiring_errors {1} 1).1 (by decide)⟩,
    ⟨by decide, (sender_wiring_errors {1} 2).2 (by decide)⟩⟩

/-- Claim C8: each node variant declares output headers whose length equals the
number of values its recorded output function produces: the Storage headers
(the attribute assigned in __post_init__) match the tuple update returns, and
the Inflow and terminal Outlet headers are single columns matching the single
float their send produces. -/
theorem output_headers_shape (s : Storage) (i : ℚ) :
    (s.output_headers).length = ((s.update i).1).length ∧
    Inflow.output_headers.length = 1 ∧
    OutletNode.output_headers.length = 1 := by
  refine ⟨?_, rfl, rfl⟩
  show ("storage" :: (s.reservoir.outlets.map AnyOutlet.name ++ ["spill", "storage"])).length
    = (i :: s.reservoir.operate (i + s.volume)).length
  rw [List.length_cons, List.length_cons, operate_length, List.length_append,
    List.length_map]
  rfl

/-- Claim C9: the logger wrapper returns exactly the wrapped function's value and
appends that same value to the log; over any sequence of calls against one log
the log accumulates exactly the returned values in call order. -/
theorem logger_transparent {α β : Type} (f : α → β) (x : α) (log : List β)
    (inputs : List α) :
    (logWrapper f x log).1 = f x ∧
    logWrapperRuns f inputs log = log ++ inputs.map f := by
  refine ⟨rfl, ?_⟩
  induction inputs generalizing log with
  | nil => simp [logWrapperRuns]
  | cons y ys ih => simp [logWrapperRuns, logWrapper, ih]

/-- Claim C10: DataNode.send invokes the wrapped node's send, keeping its effect
on the log, but returns Python None rather than the flow value. -/
theorem datanode_send_none (nodeSend : List ℚ → ℚ × List ℚ) (log : List ℚ) :
    (DataNode.send nodeSend log).1 = none ∧
    (DataNode.send nodeSend log).2 = (nodeSend log).2 :=
  ⟨rfl, rfl⟩

end Caboodle
